import Mathlib

/-!
Shallow embedding of the ethereal-exploration game server (the enhanced
variant in `src/unnamed/part_000`, which all claims cite as their primary
source; `src/server.js` is a sibling variant of the same logic).

Modelling conventions:
* JavaScript numbers are modelled as `ℚ` (positions, times in ms,
  radiation, scores); event counters are `ℕ`; ids are `String`.
* `players` (a JS object keyed by socket id) is an association list
  `List (String × Player)`; iteration order of `Object.entries` is the
  list order, which matters for the `reduce` picking the closest
  competitor.
* The JS `x || y` idiom on numeric fields (where `0` and `undefined` are
  falsy) is `jsOr : Option ℚ → ℚ → ℚ`.
* `Math.sqrt` distances are modelled by squared distances: every
  comparison the source performs on distances (`<`, `≤`, `>`) is
  performed here on squared distances against squared thresholds, which
  is equivalent because `Real.sqrt` is strictly monotone on nonnegative
  inputs (lemma `sqrt_lt_sqrt_of_nonneg` below records this bridge).
* `Math.random()` results are threaded in as explicit parameters
  (portal-reduction draw, respawn position), so every definition is
  executable.
* Socket emissions / console logs are pure output and not part of the
  mutated state, so they are dropped.
-/

namespace Ethereal

/-- WORLD_SETTINGS from part_000 (the fields the claims exercise). -/
def stealRadius : ℚ := 100

def proximityKillDistance : ℚ := 50

def proximityKillTime : ℚ := 6000

/-- PVP_SETTINGS from part_000. -/
def baseSpeed : ℚ := 1

def boostSpeed : ℚ := 7/2

def boostDuration : ℚ := 2000

def scoreSpeedBonus : ℚ := 1/200

def maxScoreSpeed : ℚ := 5/2

def radiationKillThreshold : ℚ := 100

def speedBoostOnCollection : Bool := true

/-- The fixed enumeration of object types (keys of OBJECT_TYPES). -/
inductive ObjType where
  | discovery
  | exploding
  | rare
  | spaceCreature
  | ringPortal
deriving DecidableEq, Repr

/-- OBJECT_TYPES[type].points. -/
def ObjType.points : ObjType → ℚ
  | .discovery => 10
  | .exploding => 15
  | .rare => 50
  | .spaceCreature => 25
  | .ringPortal => 5

/-- OBJECT_TYPES[type].collectRadius. -/
def ObjType.collectRadius : ObjType → ℚ
  | .discovery => 30
  | .exploding => 25
  | .rare => 20
  | .spaceCreature => 35
  | .ringPortal => 30

/-- OBJECT_TYPES[type].respawnTime (ms). -/
def ObjType.respawnTime : ObjType → ℚ
  | .discovery => 30000
  | .exploding => 45000
  | .rare => 120000
  | .spaceCreature => 60000
  | .ringPortal => 180000

/-- The mutable per-player state of the part_000 `Player` class (socket,
name and color are connection metadata the claims never read; the flee /
proximity-danger bookkeeping fields are likewise cosmetic and omitted). -/
structure Player where
  x : ℚ
  y : ℚ
  z : ℚ
  rotationX : ℚ
  rotationY : ℚ
  radiationLevel : ℚ
  score : ℚ
  discoveries : ℕ
  rareItems : ℕ
  creatures : ℕ
  lastUpdate : ℚ
  resourcesStolen : ℕ
  resourcesLost : ℕ
  currentSpeedMultiplier : ℚ
  speedBoostEndTime : ℚ
  lastCollectionTime : ℚ
  deathCount : ℕ
  killCount : ℕ
  isAlive : Bool
  lastDeathTime : ℚ
deriving DecidableEq, Repr

/-- A freshly constructed Player (constructor defaults; the random spawn
coordinates are passed in). -/
def Player.create (x y z : ℚ) (now : ℚ) : Player :=
  { x := x, y := y, z := z, rotationX := 0, rotationY := 0,
    radiationLevel := 0, score := 0, discoveries := 0, rareItems := 0,
    creatures := 0, lastUpdate := now, resourcesStolen := 0,
    resourcesLost := 0, currentSpeedMultiplier := 1,
    speedBoostEndTime := 0, lastCollectionTime := 0, deathCount := 0,
    killCount := 0, isAlive := true, lastDeathTime := 0 }

/-- An inbound `player_update` message: each numeric field may be absent. -/
structure UpdateData where
  x : Option ℚ
  y : Option ℚ
  z : Option ℚ
  rotationX : Option ℚ
  rotationY : Option ℚ
  radiationLevel : Option ℚ
deriving DecidableEq, Repr

/-- JS `data.f || prev`: an absent field or the falsy number 0 keeps the
previous value; any other number (including negatives) replaces it. -/
def jsOr (v : Option ℚ) (prev : ℚ) : ℚ :=
  match v with
  | none => prev
  | some a => if a = 0 then prev else a

/-- Player.updateSpeedMultiplier (part_000 lines 132-149). -/
def Player.updateSpeedMultiplier (p : Player) (now : ℚ) : Player :=
  let scoreBonus := min (p.score * scoreSpeedBonus) (maxScoreSpeed - baseSpeed)
  let speedMultiplier := baseSpeed + scoreBonus
  let speedMultiplier := if now < p.speedBoostEndTime then boostSpeed else speedMultiplier
  { p with currentSpeedMultiplier := speedMultiplier }

/-- Player.giveSpeedBoost (part_000 lines 151-157). -/
def Player.giveSpeedBoost (p : Player) (now : ℚ) : Player :=
  if speedBoostOnCollection then
    { p with speedBoostEndTime := now + boostDuration, lastCollectionTime := now }
  else p

/-- Player.triggerRadiationDeath (part_000 lines 159-187): guarded by the
alive flag, then flips alive, bumps the death counter, zeroes radiation
and moves the player to a fresh random spawn position (threaded in as
`sx sy sz`).  The scheduled respawn and the broadcast are side effects
outside the mutated player state. -/
def Player.triggerRadiationDeath (p : Player) (now sx sy sz : ℚ) : Player :=
  if p.isAlive = false then p
  else
    { p with
      isAlive := false
      deathCount := p.deathCount + 1
      lastDeathTime := now
      radiationLevel := 0
      x := sx
      y := sy
      z := sz }

/-- The field-overwrite block of Player.update (part_000 lines 115-121):
position/rotation/radiation are overwritten through the `||` idiom,
radiation is capped at 100, and the last-update timestamp is stamped. -/
def Player.applyFields (p : Player) (data : UpdateData) (now : ℚ) : Player :=
  { p with
    x := jsOr data.x p.x
    y := jsOr data.y p.y
    z := jsOr data.z p.z
    rotationX := jsOr data.rotationX p.rotationX
    rotationY := jsOr data.rotationY p.rotationY
    radiationLevel := min 100 (jsOr data.radiationLevel p.radiationLevel)
    lastUpdate := now }

/-- Player.update (part_000 lines 112-130): dead players ignore updates;
otherwise the fields are overwritten, the speed multiplier is recomputed
and the radiation-death condition is evaluated.  `sx sy sz` is the random
spawn position used if death triggers. -/
def Player.update (p : Player) (data : UpdateData) (now sx sy sz : ℚ) : Player :=
  if p.isAlive = false then p
  else
    let p2 := (p.applyFields data now).updateSpeedMultiplier now
    if radiationKillThreshold ≤ p2.radiationLevel ∧ p2.isAlive = true then
      p2.triggerRadiationDeath now sx sy sz
    else p2

/-- One player's step of the radiation damage loop (part_000 lines
1027-1050): alive players gain 0.5 radiation, capped at 100; the
threshold warnings are pure emits.  Dead players are skipped.  The loop
never evaluates a death condition. -/
def radiationTick (p : Player) : Player :=
  if p.isAlive = true then
    { p with radiationLevel := min 100 (p.radiationLevel + 1/2) }
  else p

/-- A collectible world object (part_000 WorldObject; the cosmetic
type-specific fields hue / tentacleCount / fleeSpeed / detectionRange /
flee state and the competingPlayers scratch list are not read by any
claim and are omitted). -/
structure WorldObject where
  id : ℕ
  type : ObjType
  x : ℚ
  y : ℚ
  z : ℚ
  available : Bool
  collectedBy : Option String
  collectedAt : Option ℚ
deriving DecidableEq, Repr

/-- WorldObject constructor (part_000 lines 245-269): fresh objects are
available with no collector and no collection timestamp. -/
def WorldObject.create (id : ℕ) (type : ObjType) (x y z : ℚ) : WorldObject :=
  { id := id, type := type, x := x, y := y, z := z,
    available := true, collectedBy := none, collectedAt := none }

/-- JS truthiness of the nullable numeric `collectedAt` field: `null`
(here `none`) and the number 0 are falsy. -/
def qTruthy : Option ℚ → Bool
  | none => false
  | some a => a ≠ 0

/-- WorldObject.checkRespawn (part_000 lines 272-285): an unavailable
object with a truthy collection timestamp respawns once strictly more
than its type's respawn time has elapsed; returns the new object and
whether a transition occurred. -/
def WorldObject.checkRespawn (o : WorldObject) (now : ℚ) : WorldObject × Bool :=
  if o.available = false ∧ qTruthy o.collectedAt then
    if o.type.respawnTime < now - (o.collectedAt.getD 0) then
      ({ o with available := true, collectedBy := none, collectedAt := none }, true)
    else (o, false)
  else (o, false)

/-- Squared Euclidean distance; stands for `Math.sqrt(dx²+dy²+dz²)` with
all comparisons against squared thresholds (see the header note). -/
def distSq (x1 y1 z1 x2 y2 z2 : ℚ) : ℚ :=
  (x1 - x2) ^ 2 + (y1 - y2) ^ 2 + (z1 - z2) ^ 2

/-- The process-wide `players` object: an association list keyed by
socket id, in `Object.entries` iteration order. -/
abbrev PlayersMap := List (String × Player)

/-- Keyed in-place mutation of players: every entry keeps its key and its
value is rewritten by `f` applied to its own key (entries whose key `f`
ignores are returned unchanged). -/
def updatePlayers (ps : PlayersMap) (f : String → Player → Player) : PlayersMap :=
  ps.map fun iq => (iq.1, f iq.1 iq.2)

/-- One entry of the `competingPlayers` array built by
handleResourceCollection: a competitor together with its (squared)
distance to the object. -/
structure CompEntry where
  pid : String
  player : Player
  dSq : ℚ
deriving DecidableEq, Repr

/-- The competitor enumeration of handleResourceCollection (part_000
lines 536-552): every OTHER living player within the steal radius of the
object, with its distance. -/
def competingPlayersOf (ps : PlayersMap) (playerId : String) (obj : WorldObject) :
    List CompEntry :=
  ps.filterMap fun iq =>
    if iq.1 = playerId ∨ iq.2.isAlive = false then none
    else
      let d := distSq obj.x obj.y obj.z iq.2.x iq.2.y iq.2.z
      if d ≤ stealRadius ^ 2 then some ⟨iq.1, iq.2, d⟩ else none

/-- The JS `reduce` picking the closest competitor (part_000 lines
556-558): seeded with the first entry, a later entry replaces the
accumulator only when strictly closer. -/
def reduceClosest (c : CompEntry) : List CompEntry → CompEntry
  | [] => c
  | e :: es => reduceClosest (if e.dSq < c.dSq then e else c) es

/-- Player.addScore. -/
def Player.addScore (p : Player) (points : ℚ) : Player :=
  { p with score := p.score + points }

/-- The per-type category counter bump (`discoveries` / `rareItems` /
`creatures`; exploding and ringPortal bump nothing). -/
def Player.bumpCategory (p : Player) (t : ObjType) : Player :=
  match t with
  | .discovery => { p with discoveries := p.discoveries + 1 }
  | .rare => { p with rareItems := p.rareItems + 1 }
  | .spaceCreature => { p with creatures := p.creatures + 1 }
  | _ => p

/-- The randomized ringPortal radiation reduction
`25 + Math.random() * 15` with the random draw threaded in. -/
def portalReduction (portalRand : ℚ) : ℚ := 25 + portalRand * 15

/-- The mutations applied to a successful thief (part_000 lines 562-581):
points, theft credit, speed boost, category counter. -/
def thiefUpdate (q : Player) (t : ObjType) (now : ℚ) : Player :=
  let q1 := (q.addScore t.points)
  let q2 := { q1 with resourcesStolen := q1.resourcesStolen + 1 }
  (q2.giveSpeedBoost now).bumpCategory t

/-- The mutations applied to a successful collector (part_000 lines
608-633): points, speed boost, category counter, and for ringPortal the
radiation reduction floored at 0. -/
def collectorUpdate (q : Player) (t : ObjType) (now portalRand : ℚ) : Player :=
  let q1 := ((q.addScore t.points).giveSpeedBoost now).bumpCategory t
  if t = ObjType.ringPortal then
    { q1 with radiationLevel := max 0 (q1.radiationLevel - portalReduction portalRand) }
  else q1

/-- Marking the found object collected in place inside the world list
(object ids are unique, assigned by a monotone counter). -/
def markCollected (objs : List WorldObject) (obj : WorldObject) (collector : String)
    (now : ℚ) : List WorldObject :=
  objs.map fun o =>
    if o.id = obj.id then
      { obj with available := false, collectedBy := some collector, collectedAt := some now }
    else o

/-- The value returned by handleResourceCollection to the caller. -/
inductive CollectResult where
  | failNotAvailable
  | failTooFar
  | stolen (stolenBy : String) (thiefDistSq yourDistSq : ℚ)
  | success (points radiationReduction : ℚ) (competitorCount : ℕ)
deriving DecidableEq, Repr

def CollectResult.isStolen : CollectResult → Bool
  | .stolen _ _ _ => true
  | _ => false

def CollectResult.isSuccess : CollectResult → Bool
  | .success _ _ _ => true
  | _ => false

/-- The theft branch of handleResourceCollection (part_000 lines
560-605). -/
def theftOutcome (ps : PlayersMap) (objs : List WorldObject) (playerId thiefId : String)
    (obj : WorldObject) (now thiefDSq yourDSq : ℚ) :
    PlayersMap × List WorldObject × CollectResult :=
  (updatePlayers ps (fun i q =>
     if i = thiefId then thiefUpdate q obj.type now
     else if i = playerId then { q with resourcesLost := q.resourcesLost + 1 }
     else q),
   markCollected objs obj thiefId now,
   CollectResult.stolen thiefId thiefDSq yourDSq)

/-- The successful-collection branch of handleResourceCollection
(part_000 lines 608-656). -/
def successOutcome (ps : PlayersMap) (objs : List WorldObject) (playerId : String)
    (obj : WorldObject) (now portalRand : ℚ) (compCount : ℕ) :
    PlayersMap × List WorldObject × CollectResult :=
  (updatePlayers ps (fun i q => if i = playerId then collectorUpdate q obj.type now portalRand else q),
   markCollected objs obj playerId now,
   CollectResult.success obj.type.points
     (if obj.type = ObjType.ringPortal then portalReduction portalRand else 0) compCount)

/-- handleResourceCollection (part_000 lines 515-657): guards (player
exists and alive, object exists and available, within collect radius),
then the contention resolution: the closest living competitor inside the
steal radius steals the object when strictly closer than the acting
player; otherwise the acting player collects. -/
def handleResourceCollection (ps : PlayersMap) (objs : List WorldObject)
    (playerId : String) (objectId : ℕ) (now portalRand : ℚ) :
    PlayersMap × List WorldObject × CollectResult :=
  match List.lookup playerId ps, objs.find? (fun o => o.id == objectId) with
  | some player, some obj =>
    if player.isAlive = false ∨ obj.available = false then (ps, objs, .failNotAvailable)
    else if obj.type.collectRadius ^ 2 < distSq obj.x obj.y obj.z player.x player.y player.z then
      (ps, objs, .failTooFar)
    else
      match competingPlayersOf ps playerId obj with
      | [] => successOutcome ps objs playerId obj now portalRand 0
      | c :: cs =>
        if (reduceClosest c cs).dSq < distSq obj.x obj.y obj.z player.x player.y player.z then
          theftOutcome ps objs playerId (reduceClosest c cs).pid obj now (reduceClosest c cs).dSq
            (distSq obj.x obj.y obj.z player.x player.y player.z)
        else successOutcome ps objs playerId obj now portalRand (c :: cs).length
  | _, _ => (ps, objs, .failNotAvailable)

/-- A proximity battle (part_000 lines 437-443): member players are held
by reference; membership is modelled by id. -/
structure Battle where
  startTime : ℚ
  players : List String
  highestRadiationPlayer : String
deriving DecidableEq, Repr

/-- The process-wide `proximityBattles` map keyed by battle signature. -/
abbrev BattleMap := List (String × Battle)

/-- The battle-purge part of the disconnect handler (part_000 lines
905-924): every battle containing the leaver drops them, and a battle
left with fewer than two members is deleted. -/
def disconnectPurgeBattles (battles : BattleMap) (pid : String) : BattleMap :=
  battles.filterMap fun kb =>
    if pid ∈ kb.2.players then
      if (kb.2.players.filter (fun q => !(q == pid))).length < 2 then none
      else some (kb.1, { kb.2 with players := kb.2.players.filter (fun q => !(q == pid)) })
    else some kb

/-- The shared server state the periodic loops sweep. -/
structure ServerState where
  players : PlayersMap
  worldObjects : List WorldObject
  battles : BattleMap
deriving DecidableEq, Repr

/-- The hard-coded inactivity timeout of the world management loop. -/
def inactivityTimeout : ℚ := 60000

/-- The inactivity cleanup of the world management loop (part_000 lines
961-970): players whose last update is older than the timeout are
deleted from the registry.  Nothing else in the loop body touches the
battle map on this path. -/
def inactivitySweep (s : ServerState) (now : ℚ) : ServerState :=
  let kept := s.players.filter fun iq =>
    if inactivityTimeout < now - iq.2.lastUpdate then false else true
  { s with players := kept }

/-- The disconnect handler (part_000 lines 898-939): purges the leaver
from every battle, then deletes them from the registry. -/
def handleDisconnect (s : ServerState) (pid : String) : ServerState :=
  match List.lookup pid s.players with
  | none => s
  | some _ =>
    { s with
      battles := disconnectPurgeBattles s.battles pid
      players := s.players.filter (fun iq => !(iq.1 == pid)) }

/-- The availability invariant of spec section 8: an object is available
exactly when it has no collector and no collection timestamp. -/
def objInv (o : WorldObject) : Prop :=
  o.available = true ↔ (o.collectedBy = none ∧ o.collectedAt = none)

instance (o : WorldObject) : Decidable (objInv o) := by
  unfold objInv
  infer_instance

/-! Concrete states used by witnesses and counterexamples. -/

/-- A competitor 10 units from the contested object. -/
def rivalA : Player := Player.create 10 0 0 0

/-- An acting player 20 units from the contested object. -/
def actorB : Player := Player.create 20 0 0 0

/-- A two-player registry: the rival joined first. -/
def psAB : PlayersMap := [("a", rivalA), ("b", actorB)]

/-- A discovery at the origin. -/
def objDisc : WorldObject := WorldObject.create 1 ObjType.discovery 0 0 0

def objsD : List WorldObject := [objDisc]

/-- A freshly created, available rare entity. -/
def objAvail : WorldObject := WorldObject.create 8 ObjType.rare 1 2 3

/-- A discovery collected at time T = 1000 (discovery respawn time is
30000 ms, so the claimed respawn instant is 31000). -/
def objC3 : WorldObject :=
  { id := 7, type := ObjType.discovery, x := 0, y := 0, z := 0,
    available := false, collectedBy := some "p", collectedAt := some 1000 }

/-- An update message with every field absent. -/
def dataNone : UpdateData :=
  { x := none, y := none, z := none, rotationX := none, rotationY := none,
    radiationLevel := none }

def pC4 : Player := { Player.create 0 0 0 0 with radiationLevel := 50 }

/-- An update carrying a negative radiation level. -/
def dataC4 : UpdateData := { dataNone with radiationLevel := some (-5) }

def dataR60 : UpdateData := { dataNone with radiationLevel := some 60 }

/-- An alive player half a radiation increment below the kill threshold. -/
def pC5 : Player := { Player.create 0 0 0 0 with radiationLevel := 199/2 }

/-- An update carrying an over-threshold radiation level. -/
def dataC5 : UpdateData := { dataNone with radiationLevel := some 150 }

/-- An already-dead player awaiting respawn. -/
def deadP : Player := { Player.create 0 0 0 0 with isAlive := false, deathCount := 3 }

/-- A player at radiation level 40, standing on a ring portal. -/
def portalPlayer : Player := { Player.create 0 0 0 0 with radiationLevel := 40 }

def objPortal : WorldObject := WorldObject.create 2 ObjType.ringPortal 0 0 0

def psPortal : PlayersMap := [("p", portalPlayer)]

def objsPortal : List WorldObject := [objPortal]

def pC10 : Player := Player.create 5 6 7 0

/-- An update with x present-but-zero that also pushes radiation past the
kill threshold. -/
def dataC10 : UpdateData := { dataNone with x := some 0, radiationLevel := some 150 }

/-- An update with x and rotationX present but exactly zero. -/
def dataC10w : UpdateData := { dataNone with x := some 0, rotationX := some 0 }

/-- A player whose last update is stale (time 0). -/
def stalePlayer : Player := Player.create 0 0 0 0

/-- A player who just updated (time 70000). -/
def freshPlayer : Player := Player.create 5 0 0 70000

def battleAB : Battle :=
  { startTime := 0, players := ["a", "b"], highestRadiationPlayer := "a" }

def battleABC : Battle :=
  { startTime := 0, players := ["a", "b", "c"], highestRadiationPlayer := "a" }

/-- A server state with an active two-member battle whose member "a" has
gone inactive. -/
def stateC8 : ServerState :=
  { players := [("a", stalePlayer), ("b", freshPlayer)], worldObjects := [],
    battles := [("a-b", battleAB)] }

/-- A server state with an active three-member battle. -/
def stateC8w : ServerState :=
  { players := [("a", stalePlayer), ("b", freshPlayer), ("c", freshPlayer)],
    worldObjects := [], battles := [("a-b-c", battleABC)] }

/-! Helper lemmas. -/

/-- Bridge for the squared-distance convention: comparing square roots of
nonnegative reals is the same as comparing the radicands, so the source's
comparisons on `Math.sqrt` distances coincide with this file's
comparisons on squared distances. -/
theorem sqrt_lt_sqrt_of_nonneg (a b : ℝ) (ha : 0 ≤ a) :
    Real.sqrt a < Real.sqrt b ↔ a < b := by
  constructor
  · intro h
    by_contra hba
    exact absurd (Real.sqrt_le_sqrt (not_lt.mp hba)) (not_le.mpr h)
  · exact fun h => Real.sqrt_lt_sqrt ha h

/-- Looking a key up after the keyed rewrite `updatePlayers` yields the
rewritten value at that key. -/
theorem lookup_updatePlayers (ps : PlayersMap) (f : String → Player → Player) (i : String) :
    List.lookup i (updatePlayers ps f) = (List.lookup i ps).map (f i) := by
  induction ps with
  | nil => rfl
  | cons hd tl ih =>
    obtain ⟨k, q⟩ := hd
    by_cases h : i = k
    · subst h
      simp [updatePlayers, List.lookup]
    · have hbeq : (i == k) = false := beq_false_of_ne h
      simpa [updatePlayers, List.lookup, hbeq] using ih

/-- The JS reduce over competitors returns one of the competitors. -/
theorem reduceClosest_mem (c : CompEntry) (cs : List CompEntry) :
    reduceClosest c cs = c ∨ reduceClosest c cs ∈ cs := by
  induction cs generalizing c with
  | nil => exact Or.inl rfl
  | cons e es ih =>
    simp only [reduceClosest]
    by_cases h : e.dSq < c.dSq
    · rw [if_pos h]
      rcases ih e with h1 | h1
      · refine Or.inr ?_
        rw [h1]
        exact List.mem_cons_self e es
      · exact Or.inr (List.mem_cons_of_mem e h1)
    · rw [if_neg h]
      rcases ih c with h1 | h1
      · exact Or.inl h1
      · exact Or.inr (List.mem_cons_of_mem e h1)

/-- The JS reduce over competitors returns a minimal-distance entry. -/
theorem reduceClosest_le (c : CompEntry) (cs : List CompEntry) :
    (reduceClosest c cs).dSq ≤ c.dSq ∧ ∀ e ∈ cs, (reduceClosest c cs).dSq ≤ e.dSq := by
  induction cs generalizing c with
  | nil => exact ⟨le_refl _, by simp⟩
  | cons e es ih =>
    simp only [reduceClosest]
    by_cases h : e.dSq < c.dSq
    · rw [if_pos h]
      obtain ⟨h1, h2⟩ := ih e
      refine ⟨le_trans h1 (le_of_lt h), ?_⟩
      intro x hx
      rcases List.mem_cons.mp hx with hx | hx
      · exact hx ▸ h1
      · exact h2 x hx
    · rw [if_neg h]
      obtain ⟨h1, h2⟩ := ih c
      refine ⟨h1, ?_⟩
      intro x hx
      rcases List.mem_cons.mp hx with hx | hx
      · exact hx ▸ le_trans h1 (not_lt.mp h)
      · exact h2 x hx

/-- Membership in the competitor enumeration, characterized over the raw
player registry. -/
theorem mem_competingPlayersOf (ps : PlayersMap) (playerId : String) (obj : WorldObject)
    (c : CompEntry) :
    c ∈ competingPlayersOf ps playerId obj ↔
      ((c.pid, c.player) ∈ ps ∧ c.pid ≠ playerId ∧ c.player.isAlive = true ∧
       c.dSq = distSq obj.x obj.y obj.z c.player.x c.player.y c.player.z ∧
       c.dSq ≤ stealRadius ^ 2) := by
  unfold competingPlayersOf
  rw [List.mem_filterMap]
  constructor
  · rintro ⟨iq, hmem, heq⟩
    by_cases h1 : iq.1 = playerId ∨ iq.2.isAlive = false
    · rw [if_pos h1] at heq
      cases heq
    · rw [if_neg h1] at heq
      push_neg at h1
      by_cases h2 : distSq obj.x obj.y obj.z iq.2.x iq.2.y iq.2.z ≤ stealRadius ^ 2
      · rw [if_pos h2] at heq
        obtain ⟨hne, halive⟩ := h1
        cases c
        injection heq with heq
        cases heq
        exact ⟨by simpa using hmem, hne, Bool.not_eq_false _ ▸ halive, rfl, h2⟩
      · rw [if_neg h2] at heq
        cases heq
  · rintro ⟨hmem, hne, halive, hd, hle⟩
    refine ⟨(c.pid, c.player), hmem, ?_⟩
    rw [if_neg (by simp [hne, halive])]
    rw [if_pos (hd ▸ hle)]
    cases c
    simp only at hd
    rw [← hd]

/-- Every entry of `markCollected` whose id is the collected object's id
is unavailable with the expected collector and timestamp. -/
theorem markCollected_spec (objs : List WorldObject) (obj : WorldObject)
    (collector : String) (now : ℚ) :
    ∀ o ∈ markCollected objs obj collector now, o.id = obj.id →
      o.available = false ∧ o.collectedBy = some collector ∧ o.collectedAt = some now := by
  intro o ho hid
  rcases List.mem_map.mp ho with ⟨o0, _, heq⟩
  by_cases h : o0.id = obj.id
  · rw [if_pos h] at heq
    rw [← heq]
    exact ⟨rfl, rfl, rfl⟩
  · rw [if_neg h] at heq
    exact absurd (heq ▸ hid) h

/-- `markCollected` preserves the availability invariant on every list
entry. -/
theorem markCollected_objInv (objs : List WorldObject) (obj : WorldObject)
    (collector : String) (now : ℚ) (h : ∀ o ∈ objs, objInv o) :
    ∀ o ∈ markCollected objs obj collector now, objInv o := by
  intro o ho
  rcases List.mem_map.mp ho with ⟨o0, hmem, heq⟩
  by_cases hid : o0.id = obj.id
  · rw [if_pos hid] at heq
    rw [← heq]
    unfold objInv
    simp
  · rw [if_neg hid] at heq
    exact heq ▸ h o0 hmem

/-- Projection facts: the field-overwrite and speed-multiplier steps do
not touch the alive flag, and the speed-multiplier step does not touch
radiation. -/
theorem applyFields_isAlive (p : Player) (data : UpdateData) (now : ℚ) :
    (p.applyFields data now).isAlive = p.isAlive := rfl

theorem updateSpeedMultiplier_isAlive (p : Player) (now : ℚ) :
    (p.updateSpeedMultiplier now).isAlive = p.isAlive := rfl

theorem updateSpeedMultiplier_radiation (p : Player) (now : ℚ) :
    (p.updateSpeedMultiplier now).radiationLevel = p.radiationLevel := rfl

/-- Player.update on an alive player, unfolded to the if on the
radiation-death condition (the condition rewritten to the stored capped
radiation value). -/
theorem update_eq (p : Player) (data : UpdateData) (now sx sy sz : ℚ)
    (h : p.isAlive = true) :
    p.update data now sx sy sz =
      (if (100 : ℚ) ≤ min 100 (jsOr data.radiationLevel p.radiationLevel) then
        ((p.applyFields data now).updateSpeedMultiplier now).triggerRadiationDeath now sx sy sz
      else (p.applyFields data now).updateSpeedMultiplier now) := by
  unfold Player.update
  rw [if_neg (by simp [h])]
  have hA : ((p.applyFields data now).updateSpeedMultiplier now).isAlive = true := h
  by_cases hth : (100 : ℚ) ≤ min 100 (jsOr data.radiationLevel p.radiationLevel)
  · rw [if_pos ⟨hth, hA⟩, if_pos hth]
  · rw [if_neg ?hc, if_neg hth]
    intro hand
    exact hth hand.1

/-! Claim theorems. -/

/-- C3 counterexample: the claim says an object collected at time T
becomes available exactly at the first check where `now ≥ T +
respawnTime[type]`.  `objC3` was collected at T = 1000 and its type
(discovery) respawns after 30000 ms, so at `now = 31000` the claim
requires the transition; the code compares with strict `>` and reports no
transition, leaving the object unavailable. -/
theorem checkRespawn_boundary_counterexample :
    (objC3.checkRespawn 31000).2 = false ∧ (objC3.checkRespawn 31000).1.available = false := by
  unfold objC3 WorldObject.checkRespawn
  norm_num [qTruthy, ObjType.respawnTime]

/-- C3 (amended): checkRespawn on an available object is a no-op
returning false; an unavailable object collected at a truthy time T
transitions exactly when `now − T` STRICTLY exceeds the type's respawn
time (clearing collector and timestamp), and never at or before `T +
respawnTime[type]`. -/
theorem checkRespawn_amended (o : WorldObject) (now T : ℚ) :
    (o.available = true → o.checkRespawn now = (o, false))
    ∧ (o.available = false → o.collectedAt = some T → T ≠ 0 →
        (((o.checkRespawn now).2 = true) ↔ o.type.respawnTime < now - T)
        ∧ ((o.checkRespawn now).2 = true →
            (o.checkRespawn now).1.available = true
            ∧ (o.checkRespawn now).1.collectedBy = none
            ∧ (o.checkRespawn now).1.collectedAt = none)
        ∧ (¬ o.type.respawnTime < now - T → o.checkRespawn now = (o, false))) := by
  constructor
  · intro hav
    unfold WorldObject.checkRespawn
    rw [if_neg]
    simp [hav]
  · intro hunav hat hT
    unfold WorldObject.checkRespawn
    rw [if_pos (by simp [hunav, hat, qTruthy, hT])]
    rw [hat]
    by_cases h : o.type.respawnTime < now - T
    · rw [if_pos (by simpa using h)]
      exact ⟨by simpa using h, fun _ => ⟨rfl, rfl, rfl⟩, fun hc => absurd h hc⟩
    · rw [if_neg (by simpa using h)]
      exact ⟨by simpa using h, by simp, fun _ => rfl⟩

/-- C3 witness: the amended theorem applied to a fresh available rare
entity (no-op) and to `objC3` (collected at T = 1000) checked at
`now = 31001`, one millisecond past the boundary. -/
theorem checkRespawn_amended_witness :
    (objAvail.checkRespawn 500 = (objAvail, false))
    ∧ (((objC3.checkRespawn 31001).2 = true) ↔ objC3.type.respawnTime < 31001 - 1000)
    ∧ ((objC3.checkRespawn 31001).2 = true →
        (objC3.checkRespawn 31001).1.available = true
        ∧ (objC3.checkRespawn 31001).1.collectedBy = none
        ∧ (objC3.checkRespawn 31001).1.collectedAt = none)
    ∧ (¬ objC3.type.respawnTime < 31001 - 1000 → objC3.checkRespawn 31001 = (objC3, false)) := by
  have h1 := (checkRespawn_amended objAvail 500 0).1 rfl
  have h2 := (checkRespawn_amended objC3 31001 1000).2 rfl rfl (by norm_num)
  exact ⟨h1, h2.1, h2.2.1, h2.2.2⟩

/-- C4 counterexample: the claim says any real-valued inbound
radiationLevel leaves the stored value in [0,100].  The code only caps
from above (`Math.min(100, …)`), so the negative inbound value −5 is
stored verbatim and the invariant fails below 0. -/
theorem radiation_clamp_counterexample :
    (pC4.update dataC4 1000 0 0 0).radiationLevel < 0 := by
  rw [update_eq pC4 dataC4 1000 0 0 0 rfl]
  rw [if_neg (by norm_num [dataC4, dataNone, jsOr, pC4, Player.create])]
  show min 100 (jsOr dataC4.radiationLevel pC4.radiationLevel) < 0
  norm_num [dataC4, dataNone, jsOr, pC4, Player.create]

/-- C4 (amended): for a player whose stored radiationLevel is in [0,100],
an update whose radiationLevel field is absent or nonnegative leaves the
stored radiationLevel in [0,100].  (A negative inbound value escapes the
clamp: the code has no lower bound.) -/
theorem radiation_clamp_amended (p : Player) (data : UpdateData) (now sx sy sz : ℚ)
    (h0 : 0 ≤ p.radiationLevel) (h100 : p.radiationLevel ≤ 100)
    (hin : ∀ a, data.radiationLevel = some a → 0 ≤ a) :
    0 ≤ (p.update data now sx sy sz).radiationLevel
    ∧ (p.update data now sx sy sz).radiationLevel ≤ 100 := by
  by_cases halive : p.isAlive = false
  · unfold Player.update
    rw [if_pos halive]
    exact ⟨h0, h100⟩
  · have halive2 : p.isAlive = true := by
      cases hpa : p.isAlive
      · exact absurd hpa halive
      · rfl
    have hv : 0 ≤ jsOr data.radiationLevel p.radiationLevel := by
      cases hra : data.radiationLevel with
      | none => simpa [jsOr] using h0
      | some a =>
        by_cases ha : a = 0
        · simpa [jsOr, ha] using h0
        · simpa [jsOr, ha] using hin a hra
    rw [update_eq p data now sx sy sz halive2]
    have hA : ((p.applyFields data now).updateSpeedMultiplier now).isAlive = true := halive2
    by_cases hth : (100 : ℚ) ≤ min 100 (jsOr data.radiationLevel p.radiationLevel)
    · rw [if_pos hth]
      unfold Player.triggerRadiationDeath
      rw [if_neg (by simp [hA])]
      exact ⟨le_refl _, by norm_num⟩
    · rw [if_neg hth]
      show 0 ≤ min 100 (jsOr data.radiationLevel p.radiationLevel)
        ∧ min 100 (jsOr data.radiationLevel p.radiationLevel) ≤ 100
      exact ⟨le_min (by norm_num) hv, min_le_left _ _⟩

/-- C4 witness: the amended clamp applied to a player at radiation 50
receiving an inbound value of 60. -/
theorem radiation_clamp_amended_witness :
    0 ≤ (pC4.update dataR60 1000 0 0 0).radiationLevel
    ∧ (pC4.update dataR60 1000 0 0 0).radiationLevel ≤ 100 :=
  radiation_clamp_amended pC4 dataR60 1000 0 0 0 (by norm_num [pC4, Player.create])
    (by norm_num [pC4, Player.create])
    (by intro a ha
        simp only [dataR60, dataNone] at ha
        injection ha with ha
        rw [← ha]
        norm_num)

/-- C5 counterexample: the claim says the periodic radiation-accrual tick
transitions a player to dead in the same operation that raises radiation
to 100.  The tick raises `pC5` (alive at 99.5) to exactly 100 and leaves
the player alive: the loop body contains no death check at all. -/
theorem radiation_tick_no_death_counterexample :
    (radiationTick pC5).radiationLevel = 100 ∧ (radiationTick pC5).isAlive = true := by
  unfold radiationTick
  rw [if_pos (show pC5.isAlive = true from rfl)]
  refine ⟨?_, rfl⟩
  show min 100 (pC5.radiationLevel + 1/2) = 100
  norm_num [pC5, Player.create]

/-- C5 (amended): an inbound update that raises the stored (capped)
radiation to the kill threshold does kill the alive player within that
same update, but the radiation-accrual tick never changes the alive flag:
death from tick-accrued radiation only happens at the player's next
update. -/
theorem radiation_death_amended :
    (∀ (p : Player) (data : UpdateData) (now sx sy sz : ℚ),
        p.isAlive = true →
        (100 : ℚ) ≤ min 100 (jsOr data.radiationLevel p.radiationLevel) →
        (p.update data now sx sy sz).isAlive = false)
    ∧ (∀ p : Player, p.isAlive = true → (radiationTick p).isAlive = true) := by
  constructor
  · intro p data now sx sy sz halive hth
    rw [update_eq p data now sx sy sz halive, if_pos hth]
    have hA : ((p.applyFields data now).updateSpeedMultiplier now).isAlive = true := halive
    unfold Player.triggerRadiationDeath
    rw [if_neg (by simp [hA])]
  · intro p halive
    unfold radiationTick
    rw [if_pos halive]
    exact halive

/-- C5 witness: a fresh alive player receiving an inbound radiation of
150 (capped to 100) dies within the update; the tick on the same fresh
player leaves it alive. -/
theorem radiation_death_amended_witness :
    ((Player.create 0 0 0 0).update dataC5 1000 1 2 3).isAlive = false
    ∧ (radiationTick (Player.create 0 0 0 0)).isAlive = true :=
  ⟨radiation_death_amended.1 (Player.create 0 0 0 0) dataC5 1000 1 2 3 rfl
     (by norm_num [dataC5, dataNone, jsOr, Player.create]),
   radiation_death_amended.2 (Player.create 0 0 0 0) rfl⟩

/-- C6: triggerRadiationDeath is idempotent against re-entry.  Calling it
on an already-dead player returns the state unchanged (every field,
deathCount included), so calling it a second time before the respawn
completes never double-counts the death. -/
theorem triggerRadiationDeath_idempotent :
    (∀ (p : Player) (now sx sy sz : ℚ),
        p.isAlive = false → p.triggerRadiationDeath now sx sy sz = p)
    ∧ (∀ (p : Player) (n1 a1 b1 c1 n2 a2 b2 c2 : ℚ),
        (p.triggerRadiationDeath n1 a1 b1 c1).triggerRadiationDeath n2 a2 b2 c2 =
          p.triggerRadiationDeath n1 a1 b1 c1) := by
  have hdead : ∀ (p : Player) (now sx sy sz : ℚ),
      p.isAlive = false → p.triggerRadiationDeath now sx sy sz = p := by
    intro p now sx sy sz h
    unfold Player.triggerRadiationDeath
    rw [if_pos h]
  refine ⟨hdead, ?_⟩
  intro p n1 a1 b1 c1 n2 a2 b2 c2
  by_cases h : p.isAlive = false
  · rw [hdead p n1 a1 b1 c1 h, hdead p n2 a2 b2 c2 h]
  · have hfirst : p.triggerRadiationDeath n1 a1 b1 c1 =
        { p with
          isAlive := false
          deathCount := p.deathCount + 1
          lastDeathTime := n1
          radiationLevel := 0
          x := a1
          y := b1
          z := c1 } := by
      unfold Player.triggerRadiationDeath
      rw [if_neg h]
    rw [hfirst]
    exact hdead _ n2 a2 b2 c2 rfl

/-- C6 witness: a second call on a dead player (deathCount 3, awaiting
respawn) changes nothing. -/
theorem triggerRadiationDeath_idempotent_witness :
    deadP.triggerRadiationDeath 99 1 2 3 = deadP :=
  triggerRadiationDeath_idempotent.1 deadP 99 1 2 3 rfl

/-- C10 counterexample: the claim says a present-but-zero position field
always leaves the stored field at its previous value.  `pC10` sits at
x = 5 and receives an update with `x: 0` that also pushes radiation to
the kill threshold; the radiation death inside the same update resets the
position to the fresh spawn x = 7, so the stored x is neither 0 nor the
previous 5. -/
theorem zero_field_counterexample :
    (pC10.update dataC10 1000 7 8 9).x = 7 ∧ pC10.x = 5 := by
  refine ⟨?_, rfl⟩
  rw [update_eq pC10 dataC10 1000 7 8 9 rfl]
  rw [if_pos (by norm_num [dataC10, dataNone, jsOr, pC10, Player.create])]
  unfold Player.triggerRadiationDeath
  rw [if_neg (by simp [show ((pC10.applyFields dataC10 1000).updateSpeedMultiplier 1000).isAlive
    = true from rfl])]

/-- C10 (amended): a present-but-zero field is falsy to the `||` defaults
of Player.update, so the stored field keeps its previous value — for the
position fields provided the update does not trigger radiation death
(which overwrites the position with a fresh spawn), and for the rotation
fields unconditionally. -/
theorem zero_field_amended (p : Player) (data : UpdateData) (now sx sy sz : ℚ) :
    ((min 100 (jsOr data.radiationLevel p.radiationLevel) < 100) →
       (data.x = some 0 → (p.update data now sx sy sz).x = p.x)
       ∧ (data.y = some 0 → (p.update data now sx sy sz).y = p.y)
       ∧ (data.z = some 0 → (p.update data now sx sy sz).z = p.z))
    ∧ (data.rotationX = some 0 → (p.update data now sx sy sz).rotationX = p.rotationX)
    ∧ (data.rotationY = some 0 → (p.update data now sx sy sz).rotationY = p.rotationY) := by
  by_cases halive : p.isAlive = false
  · unfold Player.update
    rw [if_pos halive]
    exact ⟨fun _ => ⟨fun _ => rfl, fun _ => rfl, fun _ => rfl⟩, fun _ => rfl, fun _ => rfl⟩
  · have halive2 : p.isAlive = true := by
      cases hpa : p.isAlive
      · exact absurd hpa halive
      · rfl
    have hA : ((p.applyFields data now).updateSpeedMultiplier now).isAlive = true := halive2
    rw [update_eq p data now sx sy sz halive2]
    refine ⟨?_, ?_, ?_⟩
    · intro hnd
      rw [if_neg (not_le.mpr hnd)]
      refine ⟨fun hz => ?_, fun hz => ?_, fun hz => ?_⟩
      · show jsOr data.x p.x = p.x
        rw [hz]
        simp [jsOr]
      · show jsOr data.y p.y = p.y
        rw [hz]
        simp [jsOr]
      · show jsOr data.z p.z = p.z
        rw [hz]
        simp [jsOr]
    · intro hz
      by_cases hth : (100 : ℚ) ≤ min 100 (jsOr data.radiationLevel p.radiationLevel)
      · rw [if_pos hth]
        unfold Player.triggerRadiationDeath
        rw [if_neg (by simp [hA])]
        show jsOr data.rotationX p.rotationX = p.rotationX
        rw [hz]
        simp [jsOr]
      · rw [if_neg hth]
        show jsOr data.rotationX p.rotationX = p.rotationX
        rw [hz]
        simp [jsOr]
    · intro hz
      by_cases hth : (100 : ℚ) ≤ min 100 (jsOr data.radiationLevel p.radiationLevel)
      · rw [if_pos hth]
        unfold Player.triggerRadiationDeath
        rw [if_neg (by simp [hA])]
        show jsOr data.rotationY p.rotationY = p.rotationY
        rw [hz]
        simp [jsOr]
      · rw [if_neg hth]
        show jsOr data.rotationY p.rotationY = p.rotationY
        rw [hz]
        simp [jsOr]

/-- C10 witness: an update carrying `x: 0` and `rotationX: 0` with no
radiation change keeps both stored fields at their previous values. -/
theorem zero_field_amended_witness :
    ((pC10.update dataC10w 1000 7 8 9).x = pC10.x)
    ∧ ((pC10.update dataC10w 1000 7 8 9).rotationX = pC10.rotationX) :=
  ⟨((zero_field_amended pC10 dataC10w 1000 7 8 9).1
      (by norm_num [dataC10w, dataNone, jsOr, pC10, Player.create])).1 rfl,
   (zero_field_amended pC10 dataC10w 1000 7 8 9).2.1 rfl⟩

/-- Every guard/branch of handleResourceCollection, unfolded under the
hypotheses that the player and object exist, the player is alive, the
object is available, and the player is within collect radius. -/
theorem handleResourceCollection_eq (ps : PlayersMap) (objs : List WorldObject)
    (playerId : String) (objectId : ℕ) (now portalRand : ℚ) (player : Player)
    (obj : WorldObject)
    (hp : List.lookup playerId ps = some player)
    (ho : objs.find? (fun o => o.id == objectId) = some obj)
    (halive : player.isAlive = true) (havail : obj.available = true)
    (hrange : distSq obj.x obj.y obj.z player.x player.y player.z ≤ obj.type.collectRadius ^ 2) :
    handleResourceCollection ps objs playerId objectId now portalRand =
      (match competingPlayersOf ps playerId obj with
       | [] => successOutcome ps objs playerId obj now portalRand 0
       | c :: cs =>
         if (reduceClosest c cs).dSq < distSq obj.x obj.y obj.z player.x player.y player.z then
           theftOutcome ps objs playerId (reduceClosest c cs).pid obj now (reduceClosest c cs).dSq
             (distSq obj.x obj.y obj.z player.x player.y player.z)
         else successOutcome ps objs playerId obj now portalRand (c :: cs).length) := by
  unfold handleResourceCollection
  rw [hp, ho]
  dsimp only
  rw [if_neg (by simp [halive, havail]), if_neg (not_lt.mpr hrange)]


/-- The object list returned by handleResourceCollection is either
untouched or a `markCollected` of the input list. -/
theorem collect_objs_cases (ps : PlayersMap) (objs : List WorldObject)
    (playerId : String) (objectId : ℕ) (now portalRand : ℚ) :
    (handleResourceCollection ps objs playerId objectId now portalRand).2.1 = objs
    ∨ ∃ obj collector,
        (handleResourceCollection ps objs playerId objectId now portalRand).2.1 =
          markCollected objs obj collector now := by
  unfold handleResourceCollection
  cases List.lookup playerId ps with
  | none => exact Or.inl rfl
  | some player =>
    cases objs.find? (fun o => o.id == objectId) with
    | none => exact Or.inl rfl
    | some obj =>
      dsimp only
      by_cases h1 : player.isAlive = false ∨ obj.available = false
      · rw [if_pos h1]
        exact Or.inl rfl
      · rw [if_neg h1]
        by_cases h2 : obj.type.collectRadius ^ 2 <
            distSq obj.x obj.y obj.z player.x player.y player.z
        · rw [if_pos h2]
          exact Or.inl rfl
        · rw [if_neg h2]
          cases competingPlayersOf ps playerId obj with
          | nil => exact Or.inr ⟨obj, playerId, rfl⟩
          | cons c cs =>
            dsimp only
            by_cases h3 : (reduceClosest c cs).dSq <
                distSq obj.x obj.y obj.z player.x player.y player.z
            · rw [if_pos h3]
              exact Or.inr ⟨obj, (reduceClosest c cs).pid, rfl⟩
            · rw [if_neg h3]
              exact Or.inr ⟨obj, playerId, rfl⟩

/-- C1: after construction, after a respawn check, and after every
handleResourceCollection outcome (successful collection, theft, or
failure), every world object satisfies `available = true` iff both
`collectedBy` and `collectedAt` are null. -/
theorem availability_invariant :
    (∀ (id : ℕ) (t : ObjType) (x y z : ℚ), objInv (WorldObject.create id t x y z))
    ∧ (∀ (o : WorldObject) (now : ℚ), objInv o → objInv (o.checkRespawn now).1)
    ∧ (∀ (ps : PlayersMap) (objs : List WorldObject) (playerId : String) (objectId : ℕ)
        (now portalRand : ℚ), (∀ o ∈ objs, objInv o) →
        ∀ o ∈ (handleResourceCollection ps objs playerId objectId now portalRand).2.1,
          objInv o) := by
  refine ⟨?_, ?_, ?_⟩
  · intro id t x y z
    unfold objInv WorldObject.create
    simp
  · intro o now h
    unfold WorldObject.checkRespawn
    by_cases h1 : o.available = false ∧ qTruthy o.collectedAt
    · rw [if_pos h1]
      by_cases h2 : o.type.respawnTime < now - o.collectedAt.getD 0
      · rw [if_pos h2]
        unfold objInv
        simp
      · rw [if_neg h2]
        exact h
    · rw [if_neg h1]
      exact h
  · intro ps objs playerId objectId now portalRand h o ho
    rcases collect_objs_cases ps objs playerId objectId now portalRand with hc | ⟨obj, collector, hc⟩
    · rw [hc] at ho
      exact h o ho
    · rw [hc] at ho
      exact markCollected_objInv objs obj collector now h o ho


/-- A strictly-closer competitor entry exists iff a strictly-closer
living registry entry within the steal radius exists. -/
theorem exists_closer_competitor_iff (ps : PlayersMap) (playerId : String)
    (obj : WorldObject) (d : ℚ) :
    (∃ c ∈ competingPlayersOf ps playerId obj, c.dSq < d) ↔
      (∃ iq ∈ ps, iq.1 ≠ playerId ∧ iq.2.isAlive = true ∧
        distSq obj.x obj.y obj.z iq.2.x iq.2.y iq.2.z ≤ stealRadius ^ 2 ∧
        distSq obj.x obj.y obj.z iq.2.x iq.2.y iq.2.z < d) := by
  constructor
  · rintro ⟨c, hc, hlt⟩
    rw [mem_competingPlayersOf] at hc
    obtain ⟨hmem, hne, hal, hdeq, hle⟩ := hc
    exact ⟨(c.pid, c.player), hmem, hne, hal, by rw [← hdeq]; exact hle,
      by rw [← hdeq]; exact hlt⟩
  · rintro ⟨iq, hmem, hne, hal, hle, hlt⟩
    refine ⟨⟨iq.1, iq.2, distSq obj.x obj.y obj.z iq.2.x iq.2.y iq.2.z⟩, ?_, hlt⟩
    rw [mem_competingPlayersOf]
    exact ⟨by simpa using hmem, hne, hal, rfl, hle⟩

/-- C2: for a living in-range player acting on an available object, the
outcome is theft exactly when some other living player within the steal
radius is strictly closer to the object (squared-distance comparisons,
equivalent to the source's Euclidean ones); when no competitor is
strictly closer — distance ties included — the acting player wins and
collects. -/
theorem collect_theft_iff (ps : PlayersMap) (objs : List WorldObject)
    (playerId : String) (objectId : ℕ) (now portalRand : ℚ) (player : Player)
    (obj : WorldObject)
    (hp : List.lookup playerId ps = some player)
    (ho : objs.find? (fun o => o.id == objectId) = some obj)
    (halive : player.isAlive = true) (havail : obj.available = true)
    (hrange : distSq obj.x obj.y obj.z player.x player.y player.z ≤ obj.type.collectRadius ^ 2) :
    (((handleResourceCollection ps objs playerId objectId now portalRand).2.2.isStolen = true) ↔
      (∃ iq ∈ ps, iq.1 ≠ playerId ∧ iq.2.isAlive = true ∧
        distSq obj.x obj.y obj.z iq.2.x iq.2.y iq.2.z ≤ stealRadius ^ 2 ∧
        distSq obj.x obj.y obj.z iq.2.x iq.2.y iq.2.z <
          distSq obj.x obj.y obj.z player.x player.y player.z))
    ∧ ((handleResourceCollection ps objs playerId objectId now portalRand).2.2.isStolen = false →
        (handleResourceCollection ps objs playerId objectId now portalRand).2.2.isSuccess
          = true) := by
  rw [handleResourceCollection_eq ps objs playerId objectId now portalRand player obj
    hp ho halive havail hrange]
  rw [← exists_closer_competitor_iff ps playerId obj
    (distSq obj.x obj.y obj.z player.x player.y player.z)]
  cases hcomp : competingPlayersOf ps playerId obj with
  | nil =>
    dsimp only
    refine ⟨⟨fun habs => ?_, fun hex => ?_⟩, fun _ => rfl⟩
    · simp [successOutcome, CollectResult.isStolen] at habs
    · obtain ⟨c, hc, _⟩ := hex
      cases hc
  | cons c cs =>
    dsimp only
    by_cases hlt : (reduceClosest c cs).dSq <
        distSq obj.x obj.y obj.z player.x player.y player.z
    · rw [if_pos hlt]
      have hmemc : reduceClosest c cs ∈ c :: cs := by
        rcases reduceClosest_mem c cs with he | he
        · rw [he]
          exact List.mem_cons_self c cs
        · exact List.mem_cons_of_mem c he
      refine ⟨⟨fun _ => ⟨reduceClosest c cs, hmemc, hlt⟩, fun _ => rfl⟩, fun habs => ?_⟩
      simp [theftOutcome, CollectResult.isStolen] at habs
    · rw [if_neg hlt]
      refine ⟨⟨fun habs => ?_, fun hex => ?_⟩, fun _ => rfl⟩
      · simp [successOutcome, CollectResult.isStolen] at habs
      · exfalso
        obtain ⟨c2, hc2, hlt2⟩ := hex
        have hmin := reduceClosest_le c cs
        rcases List.mem_cons.mp hc2 with he | he
        · exact hlt (lt_of_le_of_lt (he ▸ hmin.1) hlt2)
        · exact hlt (lt_of_le_of_lt (hmin.2 c2 he) hlt2)


/-- C7 (amended): in the theft scenario (B acting, closest living
competitor A strictly closer), B receives Stolen-by-A, the object
becomes unavailable with collector A, B is debited one resourcesLost and
nothing else, and A — far from being untouched — receives the point
award, a theft credit and a speed boost, while A's position, radiation
and alive flag are unchanged. -/
theorem theft_effects (ps : PlayersMap) (objs : List WorldObject)
    (playerId : String) (objectId : ℕ) (now portalRand : ℚ) (player : Player)
    (obj : WorldObject) (c : CompEntry) (cs : List CompEntry)
    (hp : List.lookup playerId ps = some player)
    (ho : objs.find? (fun o => o.id == objectId) = some obj)
    (halive : player.isAlive = true) (havail : obj.available = true)
    (hrange : distSq obj.x obj.y obj.z player.x player.y player.z ≤ obj.type.collectRadius ^ 2)
    (hcomp : competingPlayersOf ps playerId obj = c :: cs)
    (hcloser : (reduceClosest c cs).dSq <
      distSq obj.x obj.y obj.z player.x player.y player.z) :
    (handleResourceCollection ps objs playerId objectId now portalRand).2.2 =
      CollectResult.stolen (reduceClosest c cs).pid (reduceClosest c cs).dSq
        (distSq obj.x obj.y obj.z player.x player.y player.z)
    ∧ (∀ o ∈ (handleResourceCollection ps objs playerId objectId now portalRand).2.1,
        o.id = obj.id → o.available = false
          ∧ o.collectedBy = some (reduceClosest c cs).pid ∧ o.collectedAt = some now)
    ∧ List.lookup playerId
        (handleResourceCollection ps objs playerId objectId now portalRand).1 =
        some { player with resourcesLost := player.resourcesLost + 1 }
    ∧ (∀ q : Player, List.lookup (reduceClosest c cs).pid ps = some q →
        List.lookup (reduceClosest c cs).pid
          (handleResourceCollection ps objs playerId objectId now portalRand).1 =
          some (thiefUpdate q obj.type now))
    ∧ (∀ (q : Player) (t : ObjType),
        (thiefUpdate q t now).score = q.score + t.points
        ∧ (thiefUpdate q t now).resourcesStolen = q.resourcesStolen + 1
        ∧ (thiefUpdate q t now).x = q.x ∧ (thiefUpdate q t now).y = q.y
        ∧ (thiefUpdate q t now).z = q.z
        ∧ (thiefUpdate q t now).radiationLevel = q.radiationLevel
        ∧ (thiefUpdate q t now).isAlive = q.isAlive) := by
  have hres : handleResourceCollection ps objs playerId objectId now portalRand =
      theftOutcome ps objs playerId (reduceClosest c cs).pid obj now (reduceClosest c cs).dSq
        (distSq obj.x obj.y obj.z player.x player.y player.z) := by
    rw [handleResourceCollection_eq ps objs playerId objectId now portalRand player obj
      hp ho halive havail hrange, hcomp]
    dsimp only
    rw [if_pos hcloser]
  have hne : (reduceClosest c cs).pid ≠ playerId := by
    have hmemc : reduceClosest c cs ∈ c :: cs := by
      rcases reduceClosest_mem c cs with he | he
      · rw [he]
        exact List.mem_cons_self c cs
      · exact List.mem_cons_of_mem c he
    rw [← hcomp] at hmemc
    exact ((mem_competingPlayersOf ps playerId obj (reduceClosest c cs)).mp hmemc).2.1
  rw [hres]
  refine ⟨rfl, markCollected_spec objs obj (reduceClosest c cs).pid now, ?_, ?_, ?_⟩
  · simp only [theftOutcome, lookup_updatePlayers, hp, Option.map_some',
      if_neg (Ne.symm hne), eq_self_iff_true, ite_true]
  · intro q hq
    simp only [theftOutcome, lookup_updatePlayers, hq, Option.map_some',
      eq_self_iff_true, ite_true]
  · intro q t
    cases t <;>
      simp [thiefUpdate, Player.addScore, Player.giveSpeedBoost, Player.bumpCategory,
        speedBoostOnCollection, ObjType.points]

theorem collectorUpdate_radiation_portal (q : Player) (now r : ℚ) :
    (collectorUpdate q ObjType.ringPortal now r).radiationLevel =
      max 0 (q.radiationLevel - portalReduction r) := by
  simp [collectorUpdate, Player.addScore, Player.giveSpeedBoost, Player.bumpCategory,
    speedBoostOnCollection]

/-- C9: a player at radiation 40 who successfully collects a ringPortal
with the reduction drawn as 25 + rand·15 for rand ∈ [0,1] (the
configured [25,40] range) ends with radiation in [0,15]; whatever the
starting radiation, the floor at 0 keeps the result nonnegative. -/
theorem portal_radiation_bounds (ps : PlayersMap) (objs : List WorldObject)
    (playerId : String) (objectId : ℕ) (now portalRand : ℚ) (player : Player)
    (obj : WorldObject)
    (hp : List.lookup playerId ps = some player)
    (ho : objs.find? (fun o => o.id == objectId) = some obj)
    (halive : player.isAlive = true) (havail : obj.available = true)
    (hrange : distSq obj.x obj.y obj.z player.x player.y player.z ≤ obj.type.collectRadius ^ 2)
    (ht : obj.type = ObjType.ringPortal)
    (hr0 : 0 ≤ portalRand) (hr1 : portalRand ≤ 1)
    (hsucc : (handleResourceCollection ps objs playerId objectId now portalRand).2.2.isSuccess
      = true) :
    ((25 : ℚ) ≤ portalReduction portalRand ∧ portalReduction portalRand ≤ 40)
    ∧ ∀ p', List.lookup playerId
        (handleResourceCollection ps objs playerId objectId now portalRand).1 = some p' →
        0 ≤ p'.radiationLevel ∧ (player.radiationLevel = 40 → p'.radiationLevel ≤ 15) := by
  refine ⟨⟨by unfold portalReduction; nlinarith, by unfold portalReduction; nlinarith⟩, ?_⟩
  intro p' hp'
  have hres : (handleResourceCollection ps objs playerId objectId now portalRand).1 =
      updatePlayers ps
        (fun i q => if i = playerId then collectorUpdate q obj.type now portalRand else q) := by
    rw [handleResourceCollection_eq ps objs playerId objectId now portalRand player obj
      hp ho halive havail hrange] at hsucc ⊢
    cases hcomp2 : competingPlayersOf ps playerId obj with
    | nil => rfl
    | cons c cs =>
      rw [hcomp2] at hsucc
      dsimp only at hsucc ⊢
      by_cases hlt : (reduceClosest c cs).dSq <
          distSq obj.x obj.y obj.z player.x player.y player.z
      · rw [if_pos hlt] at hsucc
        simp [theftOutcome, CollectResult.isSuccess] at hsucc
      · rw [if_neg hlt]
        rfl
  rw [hres, lookup_updatePlayers, hp, Option.map_some'] at hp'
  rw [if_pos rfl] at hp'
  injection hp' with hp'
  rw [← hp', ht, collectorUpdate_radiation_portal]
  refine ⟨le_max_left 0 _, fun h40 => ?_⟩
  rw [h40]
  refine max_le (by norm_num) ?_
  unfold portalReduction
  nlinarith


/-- C8 (amended): removal via the disconnect handler does purge the
leaver from every proximity battle (and deletes battles left with fewer
than two members), but the inactivity-timeout sweep deletes the player
from the registry while leaving the battle map — and hence any stale
membership — completely untouched. -/
theorem battle_purge_amended :
    (∀ (battles : BattleMap) (pid k : String) (b : Battle),
        (k, b) ∈ disconnectPurgeBattles battles pid → pid ∉ b.players)
    ∧ (∀ (s : ServerState) (pid : String) (p : Player), List.lookup pid s.players = some p →
        ∀ (k : String) (b : Battle), (k, b) ∈ (handleDisconnect s pid).battles →
          pid ∉ b.players)
    ∧ (∀ (s : ServerState) (now : ℚ), (inactivitySweep s now).battles = s.battles) := by
  have hpurge : ∀ (battles : BattleMap) (pid k : String) (b : Battle),
      (k, b) ∈ disconnectPurgeBattles battles pid → pid ∉ b.players := by
    intro battles pid k b hmem
    unfold disconnectPurgeBattles at hmem
    rw [List.mem_filterMap] at hmem
    obtain ⟨kb, hkb, heq⟩ := hmem
    by_cases hc : pid ∈ kb.2.players
    · rw [if_pos hc] at heq
      by_cases hlen : (kb.2.players.filter (fun q => !(q == pid))).length < 2
      · rw [if_pos hlen] at heq
        cases heq
      · rw [if_neg hlen] at heq
        injection heq with heq2
        obtain ⟨hk, hb⟩ := Prod.mk.inj heq2
        rw [← hb]
        intro hin
        simp [List.mem_filter] at hin
    · rw [if_neg hc] at heq
      injection heq with heq2
      rw [heq2] at hc
      exact hc
  refine ⟨hpurge, ?_, fun s now => rfl⟩
  intro s pid p hl k b hmem
  unfold handleDisconnect at hmem
  rw [hl] at hmem
  exact hpurge s.battles pid k b hmem

/-- C8 counterexample: the claim says every removal path purges battle
membership.  In `stateC8` player "a" (stale since time 0) is removed by
the inactivity sweep at now = 70000, yet the battle map still holds the
"a-b" battle whose membership still references "a". -/
theorem inactivity_sweep_counterexample :
    List.lookup "a" (inactivitySweep stateC8 70000).players = none
    ∧ (inactivitySweep stateC8 70000).battles = [("a-b", battleAB)]
    ∧ "a" ∈ battleAB.players := by
  refine ⟨?_, rfl, by decide⟩
  norm_num [inactivitySweep, stateC8, stalePlayer, freshPlayer, Player.create,
    inactivityTimeout, List.filter, List.lookup]
  decide

/-- C8 witness: disconnecting "a" from the three-member battle state
leaves a battle whose membership no longer contains "a"; the sweep on
`stateC8` leaves the battle map untouched. -/
theorem battle_purge_amended_witness :
    ("a" ∉ (Battle.mk 0 ["b", "c"] "a").players)
    ∧ (inactivitySweep stateC8 70000).battles = stateC8.battles := by
  constructor
  · refine battle_purge_amended.1 stateC8w.battles "a" "a-b-c" (Battle.mk 0 ["b", "c"] "a") ?_
    decide
  · exact battle_purge_amended.2.2 stateC8 70000


/-- The two-player scenario evaluated: the rival at distance 10 is the
sole competitor entry for the actor at distance 20. -/
theorem psAB_competitors :
    competingPlayersOf psAB "b" objDisc = [⟨"a", rivalA, 100⟩] := by
  norm_num [competingPlayersOf, psAB, rivalA, actorB, Player.create, objDisc,
    WorldObject.create, List.filterMap, distSq, stealRadius]
  decide

/-- The two-player scenario reduces to the theft outcome: the rival at
distance 10 steals from the actor at distance 20. -/
theorem psAB_theft_result :
    handleResourceCollection psAB objsD "b" 1 1000 0 =
      theftOutcome psAB objsD "b" "a" objDisc 1000 100 400 := by
  rw [handleResourceCollection_eq psAB objsD "b" 1 1000 0 actorB objDisc (by decide) (by decide)
    rfl rfl (by norm_num [distSq, objDisc, actorB, WorldObject.create, Player.create,
      ObjType.collectRadius]), psAB_competitors]
  dsimp only
  rw [if_pos (by norm_num [reduceClosest, distSq, objDisc, actorB, WorldObject.create,
    Player.create])]
  norm_num [reduceClosest, distSq, objDisc, actorB, WorldObject.create, Player.create]

/-- C1 witness: the invariant evaluated on a freshly created object, on
its respawn check, and on the object marked stolen by the two-player
scenario. -/
theorem availability_invariant_witness :
    objInv (WorldObject.create 9 ObjType.discovery 3 4 5)
    ∧ objInv ((WorldObject.create 9 ObjType.discovery 3 4 5).checkRespawn 0).1
    ∧ objInv { objDisc with
        available := false
        collectedBy := some "a"
        collectedAt := some (1000 : ℚ) } := by
  refine ⟨availability_invariant.1 9 ObjType.discovery 3 4 5,
    availability_invariant.2.1 _ 0 (availability_invariant.1 9 ObjType.discovery 3 4 5), ?_⟩
  refine availability_invariant.2.2 psAB objsD "b" 1 1000 0 (by decide) _ ?_
  rw [psAB_theft_result]
  decide

/-- C2 witness: in the two-player scenario the acting player's attempt
is resolved as theft, via the strictly-closer living rival. -/
theorem collect_theft_iff_witness :
    (handleResourceCollection psAB objsD "b" 1 1000 0).2.2.isStolen = true := by
  have h := collect_theft_iff psAB objsD "b" 1 1000 0 actorB objDisc (by decide) (by decide)
    rfl rfl (by norm_num [distSq, objDisc, actorB, WorldObject.create, Player.create,
      ObjType.collectRadius])
  refine h.1.mpr ⟨("a", rivalA), by decide, by decide, rfl, ?_, ?_⟩
  · norm_num [distSq, objDisc, rivalA, WorldObject.create, Player.create, stealRadius]
  · norm_num [distSq, objDisc, rivalA, actorB, WorldObject.create, Player.create]

/-- C7 counterexample: the claim says the closer player A is untouched
by the theft.  In the two-player scenario B's attempt yields
Stolen-by-"a", and "a"'s stored score changes from 0 to 10: A is paid
the points, so "no field of A changes" is false. -/
theorem theft_frame_counterexample :
    (handleResourceCollection psAB objsD "b" 1 1000 0).2.2 =
      CollectResult.stolen "a" 100 400
    ∧ (List.lookup "a" (handleResourceCollection psAB objsD "b" 1 1000 0).1).map Player.score
        = some 10
    ∧ rivalA.score = 0 := by
  refine ⟨?_, ?_, rfl⟩
  · rw [psAB_theft_result]
    rfl
  · rw [psAB_theft_result]
    simp only [theftOutcome, lookup_updatePlayers]
    rw [show List.lookup "a" psAB = some rivalA from by decide]
    simp only [Option.map_some', eq_self_iff_true, ite_true]
    norm_num [thiefUpdate, Player.addScore, Player.giveSpeedBoost, Player.bumpCategory,
      speedBoostOnCollection, ObjType.points, rivalA, Player.create, objDisc, WorldObject.create]

/-- C7 witness: the amended theorem evaluated on the two-player
scenario: B is debited exactly one resourcesLost, and the thief update
leaves radiation and the alive flag unchanged. -/
theorem theft_effects_witness :
    List.lookup "b" (handleResourceCollection psAB objsD "b" 1 1000 0).1 =
      some { actorB with resourcesLost := actorB.resourcesLost + 1 }
    ∧ (thiefUpdate rivalA ObjType.discovery 1000).radiationLevel = rivalA.radiationLevel
    ∧ (thiefUpdate rivalA ObjType.discovery 1000).isAlive = rivalA.isAlive := by
  have h := theft_effects psAB objsD "b" 1 1000 0 actorB objDisc ⟨"a", rivalA, 100⟩ []
    (by decide) (by decide) rfl rfl
    (by norm_num [distSq, objDisc, actorB, WorldObject.create, Player.create,
      ObjType.collectRadius])
    psAB_competitors
    (by norm_num [reduceClosest, distSq, objDisc, actorB, WorldObject.create, Player.create])
  exact ⟨h.2.2.1, (h.2.2.2.2 rivalA ObjType.discovery).2.2.2.2.2.1,
    (h.2.2.2.2 rivalA ObjType.discovery).2.2.2.2.2.2⟩

/-- The lone portal collector has no competitors. -/
theorem psPortal_competitors : competingPlayersOf psPortal "p" objPortal = [] := by
  norm_num [competingPlayersOf, psPortal, portalPlayer, Player.create, objPortal,
    WorldObject.create, List.filterMap, distSq, stealRadius]

/-- The portal scenario reduces to the successful-collection outcome. -/
theorem psPortal_result :
    handleResourceCollection psPortal objsPortal "p" 2 1000 (1/2) =
      successOutcome psPortal objsPortal "p" objPortal 1000 (1/2) 0 := by
  rw [handleResourceCollection_eq psPortal objsPortal "p" 2 1000 (1/2) portalPlayer objPortal
    (by decide) (by decide) rfl rfl (by norm_num [distSq, objPortal, portalPlayer,
      WorldObject.create, Player.create, ObjType.collectRadius]), psPortal_competitors]

/-- C9 witness: the portal collection at radiation 40 with the median
draw 1/2 (reduction 32.5) lands at radiation 7.5, inside [0,15]. -/
theorem portal_radiation_bounds_witness :
    ((25 : ℚ) ≤ portalReduction (1/2) ∧ portalReduction (1/2) ≤ 40)
    ∧ 0 ≤ (collectorUpdate portalPlayer ObjType.ringPortal 1000 (1/2)).radiationLevel
    ∧ (collectorUpdate portalPlayer ObjType.ringPortal 1000 (1/2)).radiationLevel ≤ 15 := by
  have h := portal_radiation_bounds psPortal objsPortal "p" 2 1000 (1/2) portalPlayer objPortal
    (by decide) (by decide) rfl rfl
    (by norm_num [distSq, objPortal, portalPlayer, WorldObject.create, Player.create,
      ObjType.collectRadius])
    rfl (by norm_num) (by norm_num)
    (by rw [psPortal_result]; rfl)
  have hp2 : List.lookup "p" (handleResourceCollection psPortal objsPortal "p" 2 1000 (1/2)).1
      = some (collectorUpdate portalPlayer ObjType.ringPortal 1000 (1/2)) := by
    rw [psPortal_result]
    simp only [successOutcome, lookup_updatePlayers]
    rw [show List.lookup "p" psPortal = some portalPlayer from by decide]
    simp only [Option.map_some', eq_self_iff_true, ite_true]
    rfl
  obtain ⟨hb1, hb2⟩ := h.2 _ hp2
  exact ⟨h.1, hb1, hb2 rfl⟩

end Ethereal
